import Mathlib

/-!
# Verification of the KT27 carbon-emission weighing system

Shallow embedding of the Python sources in
`Carbon_Emission_Calculation/` (host: `gui_main.py`; device:
`hardware/simple_weight_system.py`), together with proofs that settle the
frozen claims about the line protocol, the weight-stabilization engine, the
host orchestration logic and the carbon calculator.

Conventions of the embedding:
* Python floats are modelled as exact rationals (`ℚ`); the claims under
  study are threshold comparisons and structural facts that do not hinge on
  IEEE-754 rounding.
* Wire lines are modelled as `List Char` (a stripped, newline-free line).
* Fallible operations return `Option`; a raised-and-caught Python exception
  corresponds to the handler's continuation in the embedding.
* Mutation of `self` is explicit state passing; each device/host step is a
  pure function on a state record.
-/

namespace KT27

/-! ## Basic character and string helpers

These model the fragments of the Python string machinery actually used by
the codec: `str.split(sep)` on a single-character separator, `str.upper()`
(ASCII inputs only), `str.startswith`, and decimal parsing/printing. -/

/-- `startsWithL p l` models Python `l.startswith(p)` on char lists. -/
def startsWithL : List Char → List Char → Bool
  | [], _ => true
  | _ :: _, [] => false
  | p :: ps, c :: cs => p = c && startsWithL ps cs

/-- `splitOnChar sep l` models Python `l.split(sep)` for a one-character
separator: consecutive separators yield empty chunks, and the result is
never empty. -/
def splitOnChar (sep : Char) : List Char → List (List Char)
  | [] => [[]]
  | c :: rest =>
    let r := splitOnChar sep rest
    if c = sep then [] :: r
    else
      match r with
      | [] => [[c]]
      | h :: t => (c :: h) :: t

/-- ASCII uppercase, modelling Python `str.upper()` on ASCII input. -/
def toUpperL (l : List Char) : List Char := l.map Char.toUpper

/-- The char for decimal digit `d` (`0 ≤ d ≤ 9`). -/
def digitChar (d : ℕ) : Char := Char.ofNat (48 + d)

/-- Decimal digit test (`'0'` to `'9'`). -/
def isDigitCh (c : Char) : Bool := 48 ≤ c.toNat && c.toNat ≤ 57

/-- Numeric value of a digit char. -/
def digitVal (c : Char) : ℕ := c.toNat - 48

/-- Value of a digit string read left to right. -/
def digitsVal (l : List Char) : ℕ := l.foldl (fun a c => a * 10 + digitVal c) 0

/-- Decimal digits of `n`, most significant first (fuel-based so that the
definition evaluates by kernel reduction). -/
def natDigitsAux : ℕ → ℕ → List Char
  | 0, _ => []
  | f + 1, n =>
    if n < 10 then [digitChar n]
    else natDigitsAux f (n / 10) ++ [digitChar (n % 10)]

/-- Decimal digits of `n`, most significant first. -/
def natDigits (n : ℕ) : List Char := natDigitsAux (n + 1) n

/-- Unsigned decimal parse, modelling Python `float()` restricted to plain
decimal numerals (`"12"`, `"12.5"`, `"12."`, `".5"`); exotic float inputs
(exponents, `inf`, `nan`, underscores) do not occur on this wire and are
not modelled. -/
def parseUnsignedL (l : List Char) : Option ℚ :=
  match splitOnChar '.' l with
  | [a] =>
    if a ≠ [] ∧ a.all isDigitCh then some ((digitsVal a : ℚ)) else none
  | [a, b] =>
    if (a ≠ [] ∨ b ≠ []) ∧ a.all isDigitCh ∧ b.all isDigitCh then
      some ((digitsVal a : ℚ) + (digitsVal b : ℚ) / (10 : ℚ) ^ b.length)
    else none
  | _ => none

/-- Signed decimal parse, modelling Python `float()` on the wire's numeric
fields; `none` corresponds to `float()` raising `ValueError`. -/
def parseFloatL (l : List Char) : Option ℚ :=
  match l with
  | '-' :: rest => (parseUnsignedL rest).map (fun q => -q)
  | '+' :: rest => parseUnsignedL rest
  | _ => parseUnsignedL l

/-- Render a number of tenths of a gram with one decimal place:
`fmtTenths 955 = "95.5"`, `fmtTenths (-32) = "-3.2"`. -/
def fmtTenths (n : ℤ) : List Char :=
  (if n < 0 then ['-'] else []) ++
    natDigits (n.natAbs / 10) ++ '.' :: natDigits (n.natAbs % 10)

/-- `q` carries exactly one decimal place (is an integer number of
tenths). All numeric protocol fields are rendered at this precision
(Python `f"{x:.1f}"`, and `round(x, 1)` for the confidence). -/
def oneDp (q : ℚ) : Prop := (q * 10).den = 1

instance (q : ℚ) : Decidable (oneDp q) := by unfold oneDp; infer_instance

/-- Render a one-decimal-place rational the way Python `f"{x:.1f}"` prints
it (exact on `oneDp` values, which is all the encoder is ever given). -/
def fmt1 (q : ℚ) : List Char := fmtTenths (q * 10).num

/-! ## The line protocol codec

In the source, encoding and decoding are split between the two ends of the
link:
* `WEIGHT` lines are encoded by `SimpleWeightSystem.send_weight_message`
  (simple_weight_system.py 687-701) and decoded by
  `WeightReceiver._receive_worker` (gui_main.py 220-235);
* `AI_RESULT` lines are encoded by
  `FoodCarbonGUI.send_ai_results_to_hardware` (gui_main.py 1209-1210) and
  decoded by `ResultReceiver.process_serial_input`
  (simple_weight_system.py 374-396);
* `STATUS` lines are encoded by `SimpleWeightSystem.send_status_message`
  (simple_weight_system.py 703-711); no code on either side parses them.
`decode` below is the union of the two sides' parsers. -/

/-- In-memory protocol message (spec §3 `ProtocolMessage`): the tagged
union `Weight | Status | AnalysisResult`, plus the explicit `unrecognized`
variant for malformed or unknown lines. -/
inductive ProtocolMessage where
  | weight (grams : ℚ) (stable : Bool)
  | status (mode : String) (grams : ℚ)
  | aiResult (food_name : String) (confidence : ℚ) (weight_grams : ℚ)
      (co2_grams : ℚ) (impact_level : String)
  | unrecognized
deriving DecidableEq

/-- Wire encoding of a message (newline handling excluded: `send_message`
appends the `\n`, `readline().strip()` removes it). -/
def encode : ProtocolMessage → List Char
  | .weight g st =>
    ("WEIGHT:").data ++ fmt1 g ++ ':' ::
      (if st then ("STABLE").data else ("CHANGING").data)
  | .status mode g =>
    ("STATUS:READY:MODE:").data ++ mode.data ++ (":WEIGHT:").data ++ fmt1 g
  | .aiResult f c g co i =>
    ("AI_RESULT:").data ++ f.data ++ ':' ::
      (fmt1 c ++ ':' :: (fmt1 g ++ ':' :: (fmt1 co ++ ':' :: i.data)))
  | .unrecognized => []

/-- Wire decoding: the union of the host's `WEIGHT` parser
(gui_main.py 221-249: split on `:`, at least 3 fields, `float(parts[1])`,
`parts[2].upper() == "STABLE"`) and the device's `AI_RESULT` parser
(simple_weight_system.py 375-400: split on `:`, at least 6 fields, the
three numeric fields through `float`).  Any parse failure is caught in the
source (`except ValueError` at gui_main.py 248, blanket `except` at
simple_weight_system.py 404) and surfaces here as `unrecognized`. -/
def decode (l : List Char) : ProtocolMessage :=
  if startsWithL (("WEIGHT:").data) l then
    match splitOnChar ':' l with
    | _ :: p1 :: p2 :: _ =>
      match parseFloatL p1 with
      | some w => .weight w (toUpperL p2 == ("STABLE").data)
      | none => .unrecognized
    | _ => .unrecognized
  else if startsWithL (("AI_RESULT:").data) l then
    match splitOnChar ':' l with
    | _ :: p1 :: p2 :: p3 :: p4 :: p5 :: _ =>
      match parseFloatL p2, parseFloatL p3, parseFloatL p4 with
      | some c, some w, some co => .aiResult (String.mk p1) c w co (String.mk p5)
      | _, _, _ => .unrecognized
    | _ => .unrecognized
  else .unrecognized

/-- Well-formed encodable messages: numeric fields carry one decimal place
(the precision the encoders emit), the free-text fields contain no `:`
(the field separator), and the impact level is one of the four levels the
host ever sends (gui_main.py 1200-1207). `status` and `unrecognized` are
excluded: no decoder exists for them. -/
def wellFormed : ProtocolMessage → Prop
  | .weight g _ => oneDp g
  | .status _ _ => False
  | .aiResult f c g co i =>
    (':' ∉ f.data) ∧ oneDp c ∧ oneDp g ∧ oneDp co ∧
      i ∈ (["LOW", "MEDIUM", "HIGH", "VERY_HIGH"] : List String)
  | .unrecognized => False

/-! ## Weight Stabilization Engine (device)

Embedding of `WeightSensor.get_weight_fast`
(simple_weight_system.py 531-641), real-sensor path.  A sampling burst is
a list of raw HX711 reads; a read that raised is `none` and is replaced by
the previous sample (or `0.0`) exactly as in the source (lines 581-587). -/

/-- `CALIBRATION_FACTOR` (simple_weight_system.py 39), LSB per gram. -/
def CALIBRATION_FACTOR : ℚ := 419

/-- `STABILITY_THRESHOLD` (simple_weight_system.py 40), grams. -/
def STABILITY_THRESHOLD : ℚ := 5

/-- The sensor state mutated by `get_weight_fast`: the tare offset and
`_last_stable_weight`. -/
structure SensorState where
  tare_offset : ℚ
  last_stable_weight : ℚ
deriving DecidableEq

/-- Sample-collection loop of `get_weight_fast`
(simple_weight_system.py 575-592): convert each raw value through
`(raw - offset) / CALIBRATION_FACTOR`; a failed read repeats the previous
sample, or contributes `0.0` if it is the first. -/
def collectSamples (tare : ℚ) (raws : List (Option ℤ)) : List ℚ :=
  raws.foldl
    (fun samples r =>
      match r with
      | some raw => samples ++ [((raw : ℚ) - tare) / CALIBRATION_FACTOR]
      | none => samples ++ [samples.getLastD 0])
    []

/-- Python `max(samples)` for a nonempty list. -/
def listMax (l : List ℚ) : ℚ := l.foldl max (l.headD 0)

/-- Python `min(samples)` for a nonempty list. -/
def listMin (l : List ℚ) : ℚ := l.foldl min (l.headD 0)

/-- `sample_range = max(samples) - min(samples)`
(simple_weight_system.py 601). -/
def sampleRange (l : List ℚ) : ℚ := listMax l - listMin l

/-- `samples.sort(); median = samples[len(samples) // 2]`
(simple_weight_system.py 606-608). -/
def burstMedian (l : List ℚ) : ℚ :=
  (l.insertionSort (· ≤ ·)).getD (l.length / 2) 0

/-- `WeightSensor.get_weight_fast` (simple_weight_system.py 567-641),
real-sensor path, as a function of the burst's raw reads.  Returns the
`(weight, is_stable)` pair and the updated sensor state. -/
def get_weight_fast (st : SensorState) (raws : List (Option ℤ)) :
    (ℚ × Bool) × SensorState :=
  let samples := collectSamples st.tare_offset raws
  if samples = [] then ((0, false), st)
  else
    let sample_range := sampleRange samples
    let median_weight := burstMedian samples
    if 50 < sample_range then ((median_weight, false), st)
    else
      let weight_change := |median_weight - st.last_stable_weight|
      let is_stable := weight_change < STABILITY_THRESHOLD
      let st' :=
        if ¬is_stable ∧ sample_range < 10 then
          { st with last_stable_weight := median_weight }
        else st
      if is_stable then ((st'.last_stable_weight, true), st')
      else ((median_weight, false), st')

/-! ## Carbon calculator (host, gui_main.py)

Embedding of `CarbonCalculator.calculate_emission` (gui_main.py 264-303)
over the `CARBON_DATABASE` dict (gui_main.py 27-62), and of the impact
recomputation in `send_ai_results_to_hardware` (gui_main.py 1200-1207). -/

/-- `CARBON_DATABASE` (gui_main.py 27-62), kg CO2 per kg food.  The
source dict repeats the key `"milk"` with the same value 3.2; dict
semantics keep one binding, matched here by association-list lookup. -/
def CARBON_DATABASE : List (String × ℚ) :=
  [("apple", 0.6), ("banana", 0.7), ("orange", 0.4), ("blueberry", 2.3),
   ("strawberry", 1.4), ("grape", 1.8), ("lemon", 0.5), ("lime", 0.5),
   ("peach", 0.8), ("pear", 0.6), ("mango", 1.2), ("pineapple", 1.1),
   ("potato", 0.5), ("carrot", 0.4), ("tomato", 2.1), ("cabbage", 0.4),
   ("lettuce", 0.8), ("spinach", 0.7), ("broccoli", 0.9), ("onion", 0.3),
   ("garlic", 0.3), ("bell pepper", 1.2), ("cucumber", 0.6), ("zucchini", 0.5),
   ("beef", 60.0), ("chicken", 6.9), ("pork", 12.1), ("lamb", 39.2),
   ("turkey", 5.8), ("duck", 7.5), ("goat", 8.2), ("rabbit", 4.3),
   ("salmon", 11.9), ("tuna", 9.7), ("shrimp", 18.2), ("cod", 5.4),
   ("tilapia", 4.2), ("crab", 11.5), ("lobster", 22.0), ("mussels", 1.6),
   ("milk", 3.2), ("cheese", 21.2), ("yogurt", 2.2), ("butter", 23.8),
   ("cream", 8.9), ("ice cream", 4.6), ("cottage cheese", 12.0),
   ("rice", 4.0), ("bread", 1.6), ("oats", 0.9), ("wheat", 1.3),
   ("barley", 1.1), ("quinoa", 1.8), ("corn", 1.2), ("pasta", 1.4),
   ("almond", 13.5), ("walnut", 7.0), ("peanut", 2.5), ("egg", 4.2),
   ("beans", 0.8), ("lentils", 0.9), ("chickpeas", 1.2), ("tofu", 3.2),
   ("cashew", 14.2), ("pistachio", 8.9),
   ("water", 0.0001), ("coffee", 4.9), ("tea", 1.6), ("juice", 1.2),
   ("soda", 2.3), ("beer", 1.8), ("wine", 1.9)]

/-- `DEFAULT_EMISSION_FACTOR` (gui_main.py 64). -/
def DEFAULT_EMISSION_FACTOR : ℚ := 2.5

/-- Impact-level classification of `calculate_emission`
(gui_main.py 284-291), thresholds in kg CO2. -/
def calculator_impact (total_co2_kg : ℚ) : String :=
  if total_co2_kg < 0.1 then ("LOW")
  else if total_co2_kg < 0.5 then ("MEDIUM")
  else if total_co2_kg < 2.0 then ("HIGH")
  else ("VERY_HIGH")

/-- Result dict of `calculate_emission` (gui_main.py 293-303). -/
structure CarbonResult where
  food_name : String
  weight_kg : ℚ
  emission_factor : ℚ
  total_co2_kg : ℚ
  car_km_equivalent : ℚ
  tree_months_equivalent : ℚ
  phone_charges_equivalent : ℚ
  impact_level : String
  in_database : Bool
deriving DecidableEq

/-- `CarbonCalculator.calculate_emission` (gui_main.py 264-303). -/
def calculate_emission (food_name : String) (weight_grams : ℚ) : CarbonResult :=
  let weight_kg := weight_grams / 1000
  let ef :=
    match CARBON_DATABASE.lookup food_name with
    | some f => (f, true)
    | none => (DEFAULT_EMISSION_FACTOR, false)
  let total_co2_kg := weight_kg * ef.1
  { food_name := food_name
    weight_kg := weight_kg
    emission_factor := ef.1
    total_co2_kg := total_co2_kg
    car_km_equivalent := total_co2_kg / 0.2
    tree_months_equivalent := total_co2_kg / (22 / 12)
    phone_charges_equivalent := total_co2_kg / 0.0084
    impact_level := calculator_impact total_co2_kg
    in_database := ef.2 }

/-- Impact-level recomputation in `send_ai_results_to_hardware`
(gui_main.py 1200-1207), thresholds in grams CO2. -/
def send_ai_results_impact (co2_grams : ℚ) : String :=
  if co2_grams < 100 then ("LOW")
  else if co2_grams < 500 then ("MEDIUM")
  else if co2_grams < 1000 then ("HIGH")
  else ("VERY_HIGH")

/-! ## Host serial reader (gui_main.py, `WeightReceiver`)

Embedding of one line-handling pass of `WeightReceiver._receive_worker`
(gui_main.py 204-258).  The wall-clock fields (`last_message_time`,
`timestamp`) are omitted: no claim inspects them. -/

/-- The `weight_data` dict queued by the worker (gui_main.py 229-235),
minus the wall-clock `timestamp`. -/
structure WeightData where
  weight_grams : ℚ
  is_stable : Bool
  stability : List Char
  raw_message : List Char
deriving DecidableEq

/-- The attributes `WeightReceiver.__init__` (gui_main.py 97-107) installs
on the receiver object.  Note that `is_analyzing`, `root` and
`analyze_current_frame_with_weight` are *not* among them — they belong to
`FoodCarbonGUI` (gui_main.py 344, 383, 1019) — so the lookups at
gui_main.py 243 and 246 raise `AttributeError` inside the worker. -/
def weightReceiverAttrs : List String :=
  ["baudrate", "serial_conn", "is_connected", "weight_queue",
   "receive_thread", "running", "messages_received", "weight_messages",
   "current_port", "last_message_time"]

/-- Mutable worker state: the thread-safe queue, the two counters, and
the list of weights for which `analyze_current_frame_with_weight` has
been scheduled through `root.after`. -/
structure HostState where
  queue : List WeightData
  messages_received : ℕ
  weight_messages : ℕ
  scheduled : List ℚ
deriving DecidableEq

/-- One non-empty stripped line through `_receive_worker`
(gui_main.py 213-249).  The `float` failure is caught by
`except ValueError` (line 248); the `self.is_analyzing` lookup on the
receiver (line 243) raises `AttributeError`, which the loop's blanket
handler (lines 253-256) absorbs after the weight was already queued, so
the loop continues with the next line. -/
def processLine (st : HostState) (line : List Char) : HostState :=
  if line = [] then st
  else
    let st1 : HostState :=
      { st with messages_received := st.messages_received + 1 }
    if startsWithL (("WEIGHT:").data) line then
      match splitOnChar ':' line with
      | _ :: p1 :: p2 :: _ =>
        match parseFloatL p1 with
        | none => st1
        | some weight =>
          let stability := toUpperL p2
          let is_stable := stability == ("STABLE").data
          let st2 : HostState :=
            { st1 with
              queue := st1.queue ++ [⟨weight, is_stable, stability, line⟩]
              weight_messages := st1.weight_messages + 1 }
          if is_stable ∧ 50 < weight then
            if weightReceiverAttrs.contains ("is_analyzing") then
              { st2 with scheduled := st2.scheduled ++ [weight] }
            else st2
          else st2
      | _ => st1
    else st1

/-- The reader loop over a finite trace of received lines. -/
def runWorker (lines : List (List Char)) : HostState :=
  lines.foldl processLine ⟨[], 0, 0, []⟩

/-! ## Host orchestration (gui_main.py, `FoodCarbonGUI`)

Embedding of the session state machine: `analyze_food` (925-944),
`analyze_current_frame_with_weight` (1019-1044), the success callback
`_update_ai_results` (988-1009) together with the worker that precedes it,
`process_weight_data` (1112-1162), the polling step of
`update_weight_status` (902-923), and `send_ai_results_to_hardware`
(1164-1227). -/

/-- The detection fields used downstream (`standard_name`, `confidence`). -/
structure Detection where
  standard_name : String
  confidence : ℚ
deriving DecidableEq

/-- Payload of an `AI_RESULT` send recorded by
`send_ai_results_to_hardware`; the textual rendering of the line (incl.
the `round(confidence*100, 1)` conversion at gui_main.py 1181-1192) is
not modelled — no claim inspects it. -/
structure SentResult where
  food_name : String
  co2_grams : ℚ
  impact_level : String
  weight_grams : ℚ
deriving DecidableEq

/-- `final_results` as stored by `process_weight_data`
(gui_main.py 1144-1150), restricted to the fields claims mention. -/
structure FinalResults where
  detection : Detection
  weight_grams : ℚ
  is_stable : Bool
  carbon : CarbonResult
deriving DecidableEq

/-- GUI session state (gui_main.py 379-384). -/
structure GuiState where
  system_status : String
  current_detection : Option Detection
  current_weight_data : Option WeightData
  final_results : Option FinalResults
  is_analyzing : Bool
  sent : List SentResult
deriving DecidableEq

/-- The GUI's initial state (gui_main.py 379-384): status `"ready"`,
nothing detected, not analyzing. -/
def initGuiState : GuiState := ⟨("ready"), none, none, none, false, []⟩

/-- Outcome of a classification request. -/
inductive RequestOutcome where
  | started
  | busy
  | noFrame
deriving DecidableEq

/-- `FoodCarbonGUI.analyze_food` (gui_main.py 925-944): refuse with a
"Busy" warning when `is_analyzing`, refuse when no frame, otherwise mark
the session analyzing and spawn the worker. -/
def analyze_food (st : GuiState) (hasFrame : Bool) :
    GuiState × RequestOutcome :=
  if st.is_analyzing then (st, .busy)
  else if !hasFrame then (st, .noFrame)
  else ({ st with is_analyzing := true, system_status := ("analyzing") },
        .started)

/-- `FoodCarbonGUI.analyze_current_frame_with_weight`
(gui_main.py 1019-1044): same refusal pattern (skip when already
analyzing, line 1021-1023), but it does not set `system_status`. -/
def analyze_current_frame_with_weight (st : GuiState) (hasFrame : Bool) :
    GuiState × RequestOutcome :=
  if st.is_analyzing then (st, .busy)
  else if !hasFrame then (st, .noFrame)
  else ({ st with is_analyzing := true }, .started)

/-- Successful completion of the manual classification path:
`_analyze_worker` stores `current_detection` (gui_main.py 967-974) and
`_update_ai_results` (988-1009) then moves the session to
`"waiting_weight"` and clears `is_analyzing`. -/
def analysis_success (st : GuiState) (det : Detection) : GuiState :=
  { st with
    current_detection := some det
    system_status := ("waiting_weight")
    is_analyzing := false }

/-- `FoodCarbonGUI.send_ai_results_to_hardware` (gui_main.py 1164-1227):
returns early when there is no detection, otherwise records the
`AI_RESULT` send with `co2_grams = total_co2_kg * 1000` and the impact
level recomputed from grams. -/
def send_ai_results_to_hardware (st : GuiState) (carbon : CarbonResult)
    (weight_grams : ℚ) : GuiState :=
  match st.current_detection with
  | none => st
  | some det =>
    let co2_grams := carbon.total_co2_kg * 1000
    { st with
      sent := st.sent ++
        [⟨det.standard_name, co2_grams, send_ai_results_impact co2_grams,
          weight_grams⟩] }

/-- `FoodCarbonGUI.process_weight_data` (gui_main.py 1112-1162): bail out
without a detection; a weight below 5.0 g only prints "waiting for more"
and returns (line 1122-1124) — the state is left exactly as it was;
otherwise compute the carbon result, store `final_results`, send the
`AI_RESULT`, and finish in status `"complete"`. -/
def process_weight_data (st : GuiState) (wd : WeightData) : GuiState :=
  match st.current_detection with
  | none => st
  | some det =>
    if wd.weight_grams < 5 then st
    else
      let st1 : GuiState :=
        { st with
          current_weight_data := some wd
          system_status := ("calculating") }
      let carbon := calculate_emission det.standard_name wd.weight_grams
      let st2 : GuiState :=
        { st1 with
          final_results := some ⟨det, wd.weight_grams, wd.is_stable, carbon⟩ }
      let st3 := send_ai_results_to_hardware st2 carbon wd.weight_grams
      { st3 with system_status := ("complete") }

/-- The weight-consuming part of `FoodCarbonGUI.update_weight_status`
(gui_main.py 902-923): a freshly dequeued weight record is processed only
while `system_status == "waiting_weight"`. -/
def update_weight_status (st : GuiState) (latest : Option WeightData) :
    GuiState :=
  match latest with
  | some wd =>
    if st.system_status = ("waiting_weight") then process_weight_data st wd
    else st
  | none => st

/-! ## Device display state machine (simple_weight_system.py)

Embedding of `DisplayManager` state (lines 92-97), `update_weight`
(149-176), `display_analysis_result` (267-316),
`ResultReceiver.process_serial_input` (368-408), and one iteration of the
cooperative loop body of `SimpleWeightSystem.run` (758-835). -/

/-- What the 240x240 screen currently renders. -/
inductive ScreenContent where
  | boot
  | live (weight : ℚ) (stable : Bool)
  | result (food : String) (confidence : ℚ) (weight : ℚ) (co2 : ℚ)
      (impact : String)
deriving DecidableEq

/-- `DisplayManager` state (simple_weight_system.py 92-97) together with
the rendered screen. -/
structure DisplayState where
  current_weight : ℚ
  current_food : String
  current_carbon : ℚ
  ai_result_received : Bool
  screen : ScreenContent
deriving DecidableEq

/-- `DisplayManager.update_weight` (simple_weight_system.py 149-176):
clears the screen and renders the live weight view. -/
def dm_update_weight (d : DisplayState) (w : ℚ) (is_stable : Bool) :
    DisplayState :=
  { d with current_weight := w, screen := .live w is_stable }

/-- `DisplayManager.display_analysis_result`
(simple_weight_system.py 267-316): stores the result fields, sets
`ai_result_received`, and renders the frozen result view. -/
def display_analysis_result (d : DisplayState) (food : String)
    (confidence weight co2 : ℚ) (impact : String) : DisplayState :=
  { d with
    current_food := food
    current_carbon := co2
    current_weight := weight
    ai_result_received := true
    screen := .result food confidence weight co2 impact }

/-- `ResultReceiver.process_serial_input` (simple_weight_system.py
368-408): a decoded `AI_RESULT` sets `ai_result_received` (line 391) and
displays the result; every other line leaves the display untouched. -/
def process_serial_input (d : DisplayState) (line : List Char) :
    DisplayState :=
  match decode line with
  | .aiResult f c w co i =>
    display_analysis_result { d with ai_result_received := true } f c w co i
  | _ => d

/-- `SimpleWeightSystem` mutable state relevant to the loop
(simple_weight_system.py 666-667, 750): display, last-sent bookkeeping,
the consecutive-stable counter, and the `WEIGHT` sends (recorded as
`(weight, stable)` pairs; the textual `f"{weight:.1f}"` rendering of
`send_weight_message` is not modelled — no claim inspects it). -/
structure DeviceState where
  display : DisplayState
  last_sent_weight : ℚ
  last_sent_time : ℚ
  stable_count : ℕ
  sent : List (ℚ × Bool)
deriving DecidableEq

/-- One iteration of the loop body of `SimpleWeightSystem.run`
(simple_weight_system.py 765-831): check for one optional inbound line,
take one sensor reading `(weight, is_stable)` at time `now`, update the
display only when no AI result is frozen, run the send logic for
significant weight, and reset the frozen result when weight drops below
5.0 g (lines 815-824 — a local decision, no host message involved). -/
def run_iteration (st : DeviceState) (input : Option (List Char))
    (weight : ℚ) (is_stable : Bool) (now : ℚ) : DeviceState :=
  let st0 :=
    match input with
    | some line =>
      { st with display := process_serial_input st.display line }
    | none => st
  let st1 :=
    if st0.display.ai_result_received = false then
      { st0 with display := dm_update_weight st0.display weight is_stable }
    else st0
  if 5 < weight then
    if is_stable then
      let sc := st1.stable_count + 1
      if 3 ≤ sc then
        let should_send :=
          2 < |weight - st1.last_sent_weight| ∨ st1.last_sent_time = 0 ∨
            5 < now - st1.last_sent_time
        if should_send then
          { st1 with
            sent := st1.sent ++ [(weight, true)]
            last_sent_weight := weight
            last_sent_time := now
            stable_count := 0 }
        else { st1 with stable_count := 0 }
      else { st1 with stable_count := sc }
    else { st1 with stable_count := 0 }
  else
    let st2 := { st1 with stable_count := 0 }
    if weight < 5 ∧ st2.display.ai_result_received = true then
      { st2 with
        display :=
          dm_update_weight
            { st2.display with
              ai_result_received := false
              current_carbon := 0
              current_food := ("") }
            weight is_stable }
    else st2

/-! ## Codec lemmas -/

theorem splitOnChar_ne_nil (sep : Char) (l : List Char) :
    splitOnChar sep l ≠ [] := by
  cases l with
  | nil => simp [splitOnChar]
  | cons c rest =>
    simp only [splitOnChar]
    split
    · simp
    · cases h : splitOnChar sep rest <;> simp

theorem splitOnChar_of_not_mem (sep : Char) (l : List Char)
    (h : sep ∉ l) : splitOnChar sep l = [l] := by
  induction l with
  | nil => rfl
  | cons c rest ih =>
    have hc : c ≠ sep := fun hh => h (hh ▸ List.mem_cons_self c rest)
    have hr : sep ∉ rest := fun hh => h (List.mem_cons_of_mem c hh)
    simp only [splitOnChar, if_neg hc, ih hr]

theorem splitOnChar_append (sep : Char) (a b : List Char) (ha : sep ∉ a) :
    splitOnChar sep (a ++ sep :: b) = a :: splitOnChar sep b := by
  induction a with
  | nil => simp [splitOnChar]
  | cons c a' ih =>
    have hc : c ≠ sep := fun hh => ha (hh ▸ List.mem_cons_self c a')
    have ha' : sep ∉ a' := fun hh => ha (List.mem_cons_of_mem c hh)
    simp only [List.cons_append, splitOnChar, if_neg hc, List.append_eq,
      ih ha']

theorem startsWithL_self_append (p t : List Char) :
    startsWithL p (p ++ t) = true := by
  induction p with
  | nil => rfl
  | cons c p' ih => simp [startsWithL, ih]

theorem startsWithL_cons_of_ne (p c : Char) (ps cs : List Char)
    (h : p ≠ c) : startsWithL (p :: ps) (c :: cs) = false := by
  simp [startsWithL, h]

/-! ### Digit rendering and parsing -/

theorem digitChar_isDigit {d : ℕ} (h : d < 10) :
    isDigitCh (digitChar d) = true := by
  interval_cases d <;> decide

theorem digitVal_digitChar {d : ℕ} (h : d < 10) :
    digitVal (digitChar d) = d := by
  interval_cases d <;> decide

theorem digitsVal_append_single (l : List Char) (c : Char) :
    digitsVal (l ++ [c]) = digitsVal l * 10 + digitVal c := by
  simp [digitsVal, List.foldl_append]

theorem natDigitsAux_spec :
    ∀ (f n : ℕ), n < f →
      (natDigitsAux f n).all isDigitCh = true ∧ natDigitsAux f n ≠ [] ∧
        digitsVal (natDigitsAux f n) = n := by
  intro f
  induction f with
  | zero => intro n h; omega
  | succ f ih =>
    intro n hn
    by_cases h10 : n < 10
    · simp only [natDigitsAux, if_pos h10]
      refine ⟨?_, by simp, ?_⟩
      · simpa using digitChar_isDigit h10
      · simpa [digitsVal] using digitVal_digitChar h10
    · have hrec : n / 10 < f := by
        have h1 : n / 10 < n := Nat.div_lt_self (by omega) (by omega)
        omega
      obtain ⟨hall, hne, hval⟩ := ih (n / 10) hrec
      have hm : n % 10 < 10 := Nat.mod_lt _ (by omega)
      refine ⟨?_, ?_, ?_⟩
      · simp only [natDigitsAux, if_neg h10, List.all_append]
        simp [hall, digitChar_isDigit hm]
      · simp only [natDigitsAux, if_neg h10]
        intro hcontra
        exact hne (List.append_eq_nil.mp hcontra).1
      · simp only [natDigitsAux, if_neg h10, digitsVal_append_single, hval,
          digitVal_digitChar hm]
        omega

theorem natDigits_all (n : ℕ) : (natDigits n).all isDigitCh = true :=
  (natDigitsAux_spec (n + 1) n (Nat.lt_succ_self n)).1

theorem natDigits_ne_nil (n : ℕ) : natDigits n ≠ [] :=
  (natDigitsAux_spec (n + 1) n (Nat.lt_succ_self n)).2.1

theorem digitsVal_natDigits (n : ℕ) : digitsVal (natDigits n) = n :=
  (natDigitsAux_spec (n + 1) n (Nat.lt_succ_self n)).2.2

theorem not_mem_natDigits_of_not_digit (c : Char) (n : ℕ)
    (hc : isDigitCh c = false) : c ∉ natDigits n := by
  intro hmem
  have := List.all_eq_true.mp (natDigits_all n) c hmem
  rw [hc] at this
  exact Bool.false_ne_true this

theorem natDigits_single {n : ℕ} (h : n < 10) :
    natDigits n = [digitChar n] := by
  simp [natDigits, natDigitsAux, if_pos h]

theorem parseFloatL_eq_parseUnsignedL (c : Char) (cs : List Char)
    (h1 : c ≠ '-') (h2 : c ≠ '+') :
    parseFloatL (c :: cs) = parseUnsignedL (c :: cs) := by
  unfold parseFloatL
  split <;> simp_all

theorem parseUnsignedL_append_dot (a b : List Char) (hane : a ≠ [])
    (haall : a.all isDigitCh = true) (hball : b.all isDigitCh = true) :
    parseUnsignedL (a ++ '.' :: b) =
      some ((digitsVal a : ℚ) + (digitsVal b : ℚ) / (10 : ℚ) ^ b.length) := by
  have hda : '.' ∉ a := fun hm =>
    absurd (List.all_eq_true.mp haall _ hm) (by decide)
  have hdb : '.' ∉ b := fun hm =>
    absurd (List.all_eq_true.mp hball _ hm) (by decide)
  unfold parseUnsignedL
  rw [splitOnChar_append _ _ _ hda, splitOnChar_of_not_mem _ _ hdb]
  simp [hane, haall, hball]

theorem colon_not_mem_fmtTenths (n : ℤ) : ':' ∉ fmtTenths n := by
  intro h
  simp only [fmtTenths, List.mem_append, List.mem_cons] at h
  rcases h with (h | h) | h | h
  · split at h <;> simp_all
  · exact not_mem_natDigits_of_not_digit ':' _ (by decide) h
  · exact absurd h (by decide)
  · exact not_mem_natDigits_of_not_digit ':' _ (by decide) h

theorem colon_not_mem_fmt1 (q : ℚ) : ':' ∉ fmt1 q :=
  colon_not_mem_fmtTenths _

theorem parseUnsignedL_natDigits_pair (m : ℕ) :
    parseUnsignedL (natDigits (m / 10) ++ '.' :: natDigits (m % 10)) =
      some ((m : ℚ) / 10) := by
  rw [parseUnsignedL_append_dot _ _ (natDigits_ne_nil _) (natDigits_all _)
    (natDigits_all _)]
  congr 1
  rw [digitsVal_natDigits, digitsVal_natDigits,
    natDigits_single (Nat.mod_lt m (by omega))]
  have hmod : (m : ℚ) = 10 * ((m / 10 : ℕ) : ℚ) + ((m % 10 : ℕ) : ℚ) := by
    exact_mod_cast (Nat.div_add_mod m 10).symm
  rw [hmod]
  ring_nf
  field_simp

theorem parseFloatL_fmtTenths (n : ℤ) :
    parseFloatL (fmtTenths n) = some ((n : ℚ) / 10) := by
  rcases lt_or_le n 0 with hneg | hpos
  · have hfmt : fmtTenths n =
        '-' :: (natDigits (n.natAbs / 10) ++ '.' :: natDigits (n.natAbs % 10)) := by
      simp [fmtTenths, if_pos hneg]
    rw [hfmt]
    show (parseUnsignedL _).map (fun q => -q) = _
    rw [parseUnsignedL_natDigits_pair]
    have habs : ((n.natAbs : ℕ) : ℚ) = -((n : ℚ)) := by
      rw [Int.cast_natAbs, abs_of_neg hneg, Int.cast_neg]
    rw [Option.map_some', habs]
    congr 1
    ring
  · have hfmt : fmtTenths n =
        natDigits (n.natAbs / 10) ++ '.' :: natDigits (n.natAbs % 10) := by
      simp [fmtTenths, not_lt.mpr hpos]
    obtain ⟨c, cs, hcc⟩ :=
      List.exists_cons_of_ne_nil (natDigits_ne_nil (n.natAbs / 10))
    have hcd : isDigitCh c = true :=
      List.all_eq_true.mp (natDigits_all (n.natAbs / 10)) c
        (hcc ▸ List.mem_cons_self c cs)
    have h1 : c ≠ '-' := fun h => by rw [h] at hcd; exact absurd hcd (by decide)
    have h2 : c ≠ '+' := fun h => by rw [h] at hcd; exact absurd hcd (by decide)
    rw [hfmt, hcc, List.cons_append, parseFloatL_eq_parseUnsignedL c _ h1 h2,
      ← List.cons_append, ← hcc, parseUnsignedL_natDigits_pair]
    have habs : ((n.natAbs : ℕ) : ℚ) = (n : ℚ) := by
      rw [Int.cast_natAbs, abs_of_nonneg hpos]
    rw [habs]

theorem parseFloatL_fmt1 (q : ℚ) (h : oneDp q) :
    parseFloatL (fmt1 q) = some q := by
  rw [fmt1, parseFloatL_fmtTenths]
  congr 1
  have h2 : (((q * 10).num : ℤ) : ℚ) = q * 10 := (Rat.den_eq_one_iff _).mp h
  rw [h2]
  field_simp

/-! ### Decoding shapes -/

theorem decode_of_weight_split (l : List Char)
    (hstart : startsWithL (("WEIGHT:").data) l = true)
    (a0 p1 p2 : List Char) (rest : List (List Char))
    (hsplit : splitOnChar ':' l = a0 :: p1 :: p2 :: rest)
    (q : ℚ) (hq : parseFloatL p1 = some q) :
    decode l = .weight q (toUpperL p2 == ("STABLE").data) := by
  unfold decode
  rw [if_pos hstart, hsplit]
  simp only [hq]

theorem decode_of_aiResult_split (l : List Char)
    (hnw : startsWithL (("WEIGHT:").data) l = false)
    (hstart : startsWithL (("AI_RESULT:").data) l = true)
    (a0 p1 p2 p3 p4 p5 : List Char) (rest : List (List Char))
    (hsplit : splitOnChar ':' l = a0 :: p1 :: p2 :: p3 :: p4 :: p5 :: rest)
    (c w co : ℚ) (h2 : parseFloatL p2 = some c)
    (h3 : parseFloatL p3 = some w) (h4 : parseFloatL p4 = some co) :
    decode l = .aiResult (String.mk p1) c w co (String.mk p5) := by
  unfold decode
  rw [if_neg (by simp [hnw]), if_pos hstart, hsplit]
  simp only [h2, h3, h4]

/-! ### Round trips -/

theorem decode_encode_weight (g : ℚ) (st : Bool) (h : oneDp g) :
    decode (encode (.weight g st)) = .weight g st := by
  have hW : ("WEIGHT:").data = ("WEIGHT").data ++ [':'] := by decide
  have hstart :
      startsWithL (("WEIGHT:").data) (encode (.weight g st)) = true :=
    startsWithL_self_append _ _
  have hnc : (':' : Char) ∉ (if st then ("STABLE").data else ("CHANGING").data) := by
    cases st <;> decide
  have hsplit : splitOnChar ':' (encode (.weight g st)) =
      ("WEIGHT").data :: fmt1 g ::
        [if st then ("STABLE").data else ("CHANGING").data] := by
    show splitOnChar ':' (("WEIGHT:").data ++ fmt1 g ++ ':' :: _) = _
    rw [hW, List.append_assoc, List.append_assoc, List.singleton_append,
      splitOnChar_append _ _ _ (by decide),
      splitOnChar_append _ _ _ (colon_not_mem_fmt1 g),
      splitOnChar_of_not_mem _ _ hnc]
  rw [decode_of_weight_split _ hstart _ _ _ _ hsplit g (parseFloatL_fmt1 g h)]
  cases st <;> exact congrArg (ProtocolMessage.weight g) (by decide)

theorem not_startsWith_weight_of_head_A (x : List Char) :
    startsWithL (("WEIGHT:").data) (("AI_RESULT:").data ++ x) = false := by
  rw [show ("AI_RESULT:").data = 'A' :: ("I_RESULT:").data from by decide,
    show ("WEIGHT:").data = 'W' :: ("EIGHT:").data from by decide,
    List.cons_append]
  exact startsWithL_cons_of_ne _ _ _ _ (by decide)

theorem decode_encode_aiResult (f : String) (c g co : ℚ) (i : String)
    (hf : ':' ∉ f.data) (hc : oneDp c) (hg : oneDp g) (hco : oneDp co)
    (hi : ':' ∉ i.data) :
    decode (encode (.aiResult f c g co i)) = .aiResult f c g co i := by
  have hA : ("AI_RESULT:").data = ("AI_RESULT").data ++ [':'] := by decide
  have hnw : startsWithL (("WEIGHT:").data)
      (encode (.aiResult f c g co i)) = false :=
    not_startsWith_weight_of_head_A _
  have hstart : startsWithL (("AI_RESULT:").data)
      (encode (.aiResult f c g co i)) = true :=
    startsWithL_self_append _ _
  have hsplit : splitOnChar ':' (encode (.aiResult f c g co i)) =
      ("AI_RESULT").data :: f.data :: fmt1 c :: fmt1 g :: fmt1 co ::
        [i.data] := by
    show splitOnChar ':' (("AI_RESULT:").data ++ f.data ++ ':' :: _) = _
    rw [hA, List.append_assoc, List.append_assoc, List.singleton_append,
      splitOnChar_append _ _ _ (by decide),
      splitOnChar_append _ _ _ hf,
      splitOnChar_append _ _ _ (colon_not_mem_fmt1 c),
      splitOnChar_append _ _ _ (colon_not_mem_fmt1 g),
      splitOnChar_append _ _ _ (colon_not_mem_fmt1 co),
      splitOnChar_of_not_mem _ _ hi]
  rw [decode_of_aiResult_split _ hnw hstart _ _ _ _ _ _ _ hsplit c g co
    (parseFloatL_fmt1 c hc) (parseFloatL_fmt1 g hg) (parseFloatL_fmt1 co hco)]

theorem decode_encode_status (mode : String) (g : ℚ) :
    decode (encode (.status mode g)) = .unrecognized := by
  have hS : encode (.status mode g) =
      'S' :: (("TATUS:READY:MODE:").data ++
        (mode.data ++ ((":WEIGHT:").data ++ fmt1 g))) := by
    show ("STATUS:READY:MODE:").data ++ mode.data ++ (":WEIGHT:").data ++ fmt1 g = _
    rw [show ("STATUS:READY:MODE:").data = 'S' :: ("TATUS:READY:MODE:").data
      from by decide]
    simp [List.cons_append, List.append_assoc]
  unfold decode
  rw [hS]
  rw [if_neg, if_neg]
  · rw [show ("AI_RESULT:").data = 'A' :: ("I_RESULT:").data from by decide]
    simp [startsWithL_cons_of_ne _ _ _ _ (by decide : ('A' : Char) ≠ 'S')]
  · rw [show ("WEIGHT:").data = 'W' :: ("EIGHT:").data from by decide]
    simp [startsWithL_cons_of_ne _ _ _ _ (by decide : ('W' : Char) ≠ 'S')]

theorem startsWithL_cons_iff (p : Char) (ps l : List Char) :
    startsWithL (p :: ps) l = true ↔
      ∃ cs, l = p :: cs ∧ startsWithL ps cs = true := by
  cases l with
  | nil => simp [startsWithL]
  | cons c cs =>
    simp only [startsWithL, Bool.and_eq_true, decide_eq_true_eq]
    constructor
    · rintro ⟨h1, h2⟩
      exact ⟨cs, by rw [h1], h2⟩
    · rintro ⟨cs', heq, h2⟩
      obtain ⟨h1, h3⟩ := List.cons.injEq .. ▸ heq
      exact ⟨h1.symm, h3 ▸ h2⟩

/-! ## Host worker evaluation -/

/-- Evaluation of one worker pass on a well-formed stable `WEIGHT` line
above the 50 g auto-trigger threshold: the weight is queued and both
counters advance, but `scheduled` is left unchanged — the
`self.is_analyzing` lookup at gui_main.py 243 raises `AttributeError`
(the attribute lives on `FoodCarbonGUI`, not `WeightReceiver`), so the
`root.after` call at line 246 is never reached. -/
theorem processLine_stable_weight (st : HostState) (line : List Char)
    (hne : line ≠ [])
    (hw : startsWithL (("WEIGHT:").data) line = true)
    (a0 p1 p2 : List Char) (rest : List (List Char))
    (hsplit : splitOnChar ':' line = a0 :: p1 :: p2 :: rest)
    (q : ℚ) (hq : parseFloatL p1 = some q)
    (hst : (toUpperL p2 == ("STABLE").data) = true) (h50 : 50 < q) :
    processLine st line =
      { st with
        queue := st.queue ++ [⟨q, true, toUpperL p2, line⟩]
        messages_received := st.messages_received + 1
        weight_messages := st.weight_messages + 1 } := by
  unfold processLine
  rw [if_neg hne, if_pos hw, hsplit]
  simp only [hq, hst]
  rw [if_pos ⟨trivial, h50⟩,
    if_neg (by rw [show weightReceiverAttrs.contains ("is_analyzing") = false
      from by decide]; exact Bool.false_ne_true)]

/-! ## Claim C2: anti-jitter property of `get_weight_fast` -/

/-- C2: for every sampling burst whose median differs from the
last-known-stable weight by less than 5 g and whose range is at most
50 g, `get_weight_fast` returns the previous last-known-stable value (not
the burst median) with `stable = true`, and the stored last-known-stable
value is unchanged. -/
theorem C2_anti_jitter (st : SensorState) (raws : List (Option ℤ))
    (hne : collectSamples st.tare_offset raws ≠ [])
    (hrange : sampleRange (collectSamples st.tare_offset raws) ≤ 50)
    (hclose :
      |burstMedian (collectSamples st.tare_offset raws) -
        st.last_stable_weight| < 5) :
    get_weight_fast st raws = ((st.last_stable_weight, true), st) := by
  simp only [get_weight_fast, STABILITY_THRESHOLD]
  rw [if_neg hne, if_neg (not_lt.mpr hrange),
    if_neg (show ¬(¬(|burstMedian (collectSamples st.tare_offset raws) -
        st.last_stable_weight| < 5) ∧
        sampleRange (collectSamples st.tare_offset raws) < 10)
      from fun h => h.1 hclose),
    if_pos hclose]

/-- C2 witness: burst `[100, 101, 100, 102, 100]` g (raw values at tare
offset 0, calibration factor 419) against last stable weight 100 g. -/
theorem C2_anti_jitter_witness :
    (collectSamples (0 : ℚ)
        [some 41900, some 42319, some 41900, some 42738, some 41900] ≠ [] ∧
      sampleRange (collectSamples (0 : ℚ)
        [some 41900, some 42319, some 41900, some 42738, some 41900]) ≤ 50 ∧
      |burstMedian (collectSamples (0 : ℚ)
        [some 41900, some 42319, some 41900, some 42738, some 41900]) -
          (100 : ℚ)| < 5) ∧
    get_weight_fast ⟨0, 100⟩
        [some 41900, some 42319, some 41900, some 42738, some 41900] =
      ((100, true), ⟨0, 100⟩) := by
  have hsamp : collectSamples (0 : ℚ)
      [some 41900, some 42319, some 41900, some 42738, some 41900] =
      [100, 101, 100, 102, 100] := by
    simp [collectSamples, CALIBRATION_FACTOR, List.foldl]
    norm_num
  have hrange : sampleRange ([100, 101, 100, 102, 100] : List ℚ) = 2 := by
    norm_num [sampleRange, listMax, listMin, List.foldl, max_def, min_def]
  have hmed : burstMedian ([100, 101, 100, 102, 100] : List ℚ) = 100 := by
    norm_num [burstMedian, List.insertionSort, List.orderedInsert, List.getD]
  refine ⟨⟨by rw [hsamp]; simp, by rw [hsamp, hrange]; norm_num,
    by rw [hsamp, hmed]; norm_num⟩, ?_⟩
  exact C2_anti_jitter ⟨0, 100⟩ _
    (by rw [hsamp]; simp)
    (by rw [hsamp, hrange]; norm_num)
    (by rw [hsamp, hmed]; norm_num)

/-! ## Claim C3: large variation is never reported stable -/

/-- C3: for every sampling burst whose range exceeds 50 g,
`get_weight_fast` returns the burst median with `stable = false`, and the
stored last-known-stable weight is not updated. -/
theorem C3_large_variation (st : SensorState) (raws : List (Option ℤ))
    (hne : collectSamples st.tare_offset raws ≠ [])
    (hrange : 50 < sampleRange (collectSamples st.tare_offset raws)) :
    get_weight_fast st raws =
      ((burstMedian (collectSamples st.tare_offset raws), false), st) := by
  simp only [get_weight_fast]
  rw [if_neg hne, if_pos hrange]

/-- C3 witness: burst `[0, 100, 0, 0, 0]` g (range 100 g > 50 g);
the reported weight is the burst median 0 and the state is unchanged. -/
theorem C3_large_variation_witness :
    (collectSamples (0 : ℚ) [some 0, some 41900, some 0, some 0, some 0] ≠ [] ∧
      50 < sampleRange (collectSamples (0 : ℚ)
        [some 0, some 41900, some 0, some 0, some 0])) ∧
    get_weight_fast ⟨0, 0⟩ [some 0, some 41900, some 0, some 0, some 0] =
      ((0, false), ⟨0, 0⟩) := by
  have hsamp : collectSamples (0 : ℚ)
      [some 0, some 41900, some 0, some 0, some 0] = [0, 100, 0, 0, 0] := by
    simp [collectSamples, CALIBRATION_FACTOR, List.foldl]
    norm_num
  have hrange : sampleRange ([0, 100, 0, 0, 0] : List ℚ) = 100 := by
    norm_num [sampleRange, listMax, listMin, List.foldl, max_def, min_def]
  have hmed : burstMedian ([0, 100, 0, 0, 0] : List ℚ) = 0 := by
    norm_num [burstMedian, List.insertionSort, List.orderedInsert, List.getD]
  refine ⟨⟨by rw [hsamp]; simp, by rw [hsamp, hrange]; norm_num⟩, ?_⟩
  have h := C3_large_variation ⟨0, 0⟩
    [some 0, some 41900, some 0, some 0, some 0]
    (by rw [hsamp]; simp) (by rw [hsamp, hrange]; norm_num)
  rw [h, hsamp, hmed]

/-! ## Claim C9: the carbon calculator never fails -/

/-- C9: for every food name and non-negative weight,
`calculate_emission` produces a usable result: an impact level in
{LOW, MEDIUM, HIGH, VERY_HIGH}, a total CO2 equal to
`weight_kg * emission_factor`, and — when the name is not in the database
— the default emission factor 2.5 with `in_database = false`. -/
theorem C9_calculator_total (food : String) (w : ℚ) (_hw : 0 ≤ w) :
    (calculate_emission food w).impact_level ∈
        (["LOW", "MEDIUM", "HIGH", "VERY_HIGH"] : List String) ∧
      (calculate_emission food w).total_co2_kg =
        (calculate_emission food w).weight_kg *
          (calculate_emission food w).emission_factor ∧
      (CARBON_DATABASE.lookup food = none →
        (calculate_emission food w).emission_factor =
            DEFAULT_EMISSION_FACTOR ∧
          (calculate_emission food w).in_database = false) := by
  refine ⟨?_, ?_, ?_⟩
  · cases hl : CARBON_DATABASE.lookup food <;>
      simp only [calculate_emission, calculator_impact, hl] <;>
      split_ifs <;> simp
  · cases hl : CARBON_DATABASE.lookup food <;>
      simp [calculate_emission, hl]
  · intro hnone
    simp [calculate_emission, hnone]

/-- C9 witness: the unknown food `"dragonfruit"` at 150 g gets the
default factor and a legal impact level. -/
theorem C9_calculator_total_witness :
    (0 : ℚ) ≤ 150 ∧ CARBON_DATABASE.lookup ("dragonfruit") = none ∧
      (calculate_emission ("dragonfruit") 150).emission_factor =
        DEFAULT_EMISSION_FACTOR ∧
      (calculate_emission ("dragonfruit") 150).in_database = false ∧
      (calculate_emission ("dragonfruit") 150).impact_level ∈
        (["LOW", "MEDIUM", "HIGH", "VERY_HIGH"] : List String) := by
  have h := C9_calculator_total ("dragonfruit") 150 (by norm_num)
  have hnone : CARBON_DATABASE.lookup ("dragonfruit") = none := by decide
  exact ⟨by norm_num, hnone, (h.2.2 hnone).1, (h.2.2 hnone).2, h.1⟩

/-! ## Claim C10: the two impact-level computations disagree -/

/-- C10 counterexample: 25 g of beef gives `total_co2_kg = 1.5`, which
`calculate_emission` classifies as `HIGH` (1.5 < 2.0 kg) while
`send_ai_results_to_hardware` classifies the same quantity, as
1500 g CO2, as `VERY_HIGH` (1500 ≥ 1000 g). -/
theorem C10_counterexample :
    (calculate_emission ("beef") 25).impact_level = ("HIGH") ∧
      send_ai_results_impact
        ((calculate_emission ("beef") 25).total_co2_kg * 1000) =
        ("VERY_HIGH") ∧
      send_ai_results_impact
          ((calculate_emission ("beef") 25).total_co2_kg * 1000) ≠
        (calculate_emission ("beef") 25).impact_level := by
  have hl : CARBON_DATABASE.lookup ("beef") = some 60.0 := rfl
  have h1 : (calculate_emission ("beef") 25).impact_level = ("HIGH") := by
    simp only [calculate_emission, hl]
    norm_num [calculator_impact]
  have h2 : send_ai_results_impact
      ((calculate_emission ("beef") 25).total_co2_kg * 1000) =
      ("VERY_HIGH") := by
    simp only [calculate_emission, hl]
    norm_num [send_ai_results_impact]
  exact ⟨h1, h2, by rw [h1, h2]; decide⟩

/-- C10 (amended): the calculator's kg-threshold classification and the
sender's gram-threshold classification agree exactly when the total CO2
is below 1000 g or at least 2000 g; on [1000, 2000) g the calculator
stores `HIGH` while the outgoing `AI_RESULT` carries `VERY_HIGH` (the
sender's top threshold is 1000 g where the calculator's is 2.0 kg). -/
theorem C10_impact_agreement (k : ℚ) :
    (k * 1000 < 1000 ∨ 2000 ≤ k * 1000 →
      calculator_impact k = send_ai_results_impact (k * 1000)) ∧
    (1000 ≤ k * 1000 → k * 1000 < 2000 →
      calculator_impact k = ("HIGH") ∧
        send_ai_results_impact (k * 1000) = ("VERY_HIGH")) := by
  constructor
  · intro hk
    unfold calculator_impact send_ai_results_impact
    rcases hk with hk | hk <;> split_ifs <;>
      first
        | rfl
        | (exfalso; linarith)
  · intro h1 h2
    unfold calculator_impact send_ai_results_impact
    constructor <;> split_ifs <;>
      first
        | rfl
        | (exfalso; linarith)

/-- C10 amended-claim witness at `k = 0.5` kg (500 g): both sides say
`MEDIUM`. -/
theorem C10_impact_agreement_witness :
    ((1 / 2 : ℚ) * 1000 < 1000 ∨ (2000 : ℚ) ≤ (1 / 2 : ℚ) * 1000) ∧
      calculator_impact (1 / 2) =
        send_ai_results_impact ((1 / 2 : ℚ) * 1000) :=
  ⟨Or.inl (by norm_num),
    (C10_impact_agreement (1 / 2)).1 (Or.inl (by norm_num))⟩

/-! ## Claim C6: weight below the 5 g floor while waiting for weight -/

/-- Helper: `process_weight_data` leaves the state untouched whenever the
weight is below the 5 g floor (gui_main.py 1122-1124 simply `return`s),
and `update_weight_status` therefore does too, regardless of the current
session status. -/
theorem update_weight_status_low (st : GuiState) (wd : WeightData)
    (h : wd.weight_grams < 5) : update_weight_status st (some wd) = st := by
  simp only [update_weight_status]
  by_cases hst : st.system_status = ("waiting_weight")
  · rw [if_pos hst]
    simp only [process_weight_data]
    cases hdet : st.current_detection with
    | none => simp only [hdet]
    | some det => simp only [hdet, if_pos h]
  · rw [if_neg hst]

/-- C6 counterexample: host in `waiting_weight` with a detection on file;
the message `WEIGHT:3.0:STABLE` (3 g < 5 g) arrives.  The session does
*not* transition to `"ready"` — the state, status included, is exactly
unchanged (the code merely waits for more weight); only the "no
calculation invoked" half of the claim holds. -/
theorem C6_counterexample :
    (update_weight_status
        ⟨("waiting_weight"), some ⟨("apple"), 1⟩, none, none, false, []⟩
        (some ⟨3, true, ("STABLE").data, ("WEIGHT:3.0:STABLE").data⟩)) =
      ⟨("waiting_weight"), some ⟨("apple"), 1⟩, none, none, false, []⟩ ∧
    (update_weight_status
        ⟨("waiting_weight"), some ⟨("apple"), 1⟩, none, none, false, []⟩
        (some ⟨3, true, ("STABLE").data,
          ("WEIGHT:3.0:STABLE").data⟩)).system_status ≠ ("ready") := by
  have h := update_weight_status_low
    ⟨("waiting_weight"), some ⟨("apple"), 1⟩, none, none, false, []⟩
    ⟨3, true, ("STABLE").data, ("WEIGHT:3.0:STABLE").data⟩
    (by norm_num)
  exact ⟨h, by rw [h]; decide⟩

/-- C6 (amended): a weight message below the 5 g floor is ignored: no
carbon calculation is invoked and the session state — including its
`WaitingForWeight` status — is left completely unchanged (it does not
transition to `Ready`). -/
theorem C6_low_weight_ignored (st : GuiState) (wd : WeightData)
    (h : wd.weight_grams < 5) :
    update_weight_status st (some wd) = st :=
  update_weight_status_low st wd h

/-- C6 amended-claim witness at the scenario-D input. -/
theorem C6_low_weight_ignored_witness :
    ((3 : ℚ) < 5) ∧
    update_weight_status
        ⟨("waiting_weight"), some ⟨("apple"), 1⟩, none, none, false, []⟩
        (some ⟨3, true, ("STABLE").data, ("WEIGHT:3.0:STABLE").data⟩) =
      ⟨("waiting_weight"), some ⟨("apple"), 1⟩, none, none, false, []⟩ :=
  ⟨by norm_num,
    C6_low_weight_ignored _ _ (by norm_num)⟩

/-! ## Claim C7: refusal of concurrent classification requests -/

/-- C7 counterexample: from the initial state, a first request is
started and completes (`analysis_success`), leaving the session in
`"waiting_weight"` with `is_analyzing = false`; a second request in that
state is *accepted* (`started`, not `busy`) and overwrites the session
status — the code keys refusal on `is_analyzing` only, so a request
during `WaitingForWeight` is not refused. -/
theorem C7_counterexample :
    (analysis_success (analyze_food initGuiState true).1
        ⟨("apple"), 1⟩).system_status = ("waiting_weight") ∧
    (analyze_food (analysis_success (analyze_food initGuiState true).1
        ⟨("apple"), 1⟩) true).2 = .started ∧
    (analyze_food (analysis_success (analyze_food initGuiState true).1
        ⟨("apple"), 1⟩) true).2 ≠ .busy ∧
    (analyze_food (analysis_success (analyze_food initGuiState true).1
        ⟨("apple"), 1⟩) true).1.system_status = ("analyzing") := by
  refine ⟨rfl, rfl, ?_, rfl⟩
  decide

/-- C7 (amended): a classification request is refused with the explicit
busy signal exactly while `is_analyzing` is set (the Analyzing phase,
from request start to classifier completion), on both the manual and the
auto-trigger entry points, and the refusal leaves the state untouched;
consequently two back-to-back requests always see the second refused. -/
theorem C7_busy_refusal :
    (∀ (st : GuiState) (f : Bool), st.is_analyzing = true →
      analyze_food st f = (st, .busy)) ∧
    (∀ (st : GuiState) (f : Bool), st.is_analyzing = true →
      analyze_current_frame_with_weight st f = (st, .busy)) ∧
    (∀ st : GuiState,
      analyze_food (analyze_food st true).1 true =
        ((analyze_food st true).1, .busy)) := by
  refine ⟨?_, ?_, ?_⟩
  · intro st f h
    unfold analyze_food
    rw [if_pos h]
  · intro st f h
    unfold analyze_current_frame_with_weight
    rw [if_pos h]
  · intro st
    by_cases h : st.is_analyzing = true
    · simp [analyze_food, h]
    · have h' : st.is_analyzing = false := by
        revert h; cases st.is_analyzing <;> simp
      simp [analyze_food, h']

/-- C7 amended-claim witness: a state with `is_analyzing = true` refuses
a manual request and is left untouched. -/
theorem C7_busy_refusal_witness :
    ((⟨("analyzing"), none, none, none, true, []⟩ : GuiState).is_analyzing
        = true) ∧
    analyze_food ⟨("analyzing"), none, none, none, true, []⟩ true =
      (⟨("analyzing"), none, none, none, true, []⟩, .busy) :=
  ⟨rfl, C7_busy_refusal.1 ⟨("analyzing"), none, none, none, true, []⟩ true rfl⟩

/-! ## Claim C8: the frozen result view -/

/-- C8: (i) once `ai_result_received` is set, a loop iteration with no
inbound line and a sampled weight of at least 5 g leaves the display —
food, CO2, impact, rendered screen — completely untouched; (ii) an
iteration sampling a weight below 5 g clears the frozen result and
returns to the live weight view, with no host message involved (the
input is `none`); (iii) processing any line that decodes to an
`AI_RESULT` sets `ai_result_received`. -/
theorem C8_result_frozen_until_removed :
    (∀ (st : DeviceState) (w : ℚ) (s : Bool) (now : ℚ),
      st.display.ai_result_received = true → 5 ≤ w →
      (run_iteration st none w s now).display = st.display) ∧
    (∀ (st : DeviceState) (w : ℚ) (s : Bool) (now : ℚ),
      st.display.ai_result_received = true → w < 5 →
      (run_iteration st none w s now).display =
        dm_update_weight
          { st.display with
            ai_result_received := false
            current_carbon := 0
            current_food := ("") } w s) ∧
    (∀ (d : DisplayState) (line : List Char) (f : String) (c w co : ℚ)
        (i : String),
      decode line = .aiResult f c w co i →
      (process_serial_input d line).ai_result_received = true) := by
  refine ⟨?_, ?_, ?_⟩
  · intro st w s now hfr hw5
    simp only [run_iteration, hfr, Bool.true_eq_false, if_false]
    by_cases h5 : 5 < w
    · rw [if_pos h5]
      split_ifs <;> rfl
    · rw [if_neg h5]
      rw [if_neg (fun hcon => (not_lt.mpr hw5) hcon.1)]
  · intro st w s now hfr hw5
    simp only [run_iteration, hfr, Bool.true_eq_false, if_false]
    rw [if_neg (fun h5 => (not_lt.mpr (le_of_lt hw5)) h5)]
    rw [if_pos ⟨hw5, trivial⟩]
  · intro d line f c w co i hdec
    simp only [process_serial_input, hdec]
    rfl

/-- C8 witness: a concrete frozen display (apple, 60 g CO2) with weight
100 g on the scale keeps its display, and the same state with the
object removed (2 g) reverts to the live view locally. -/
theorem C8_result_frozen_until_removed_witness :
    ((⟨⟨100, ("apple"), 60, true,
        .result ("apple") 1 100 60 ("LOW")⟩, 0, 0, 0, []⟩ :
          DeviceState).display.ai_result_received = true) ∧
    (5 : ℚ) ≤ 100 ∧
    (run_iteration
        ⟨⟨100, ("apple"), 60, true,
          .result ("apple") 1 100 60 ("LOW")⟩, 0, 0, 0, []⟩
        none 100 true 0).display =
      (⟨⟨100, ("apple"), 60, true,
        .result ("apple") 1 100 60 ("LOW")⟩, 0, 0, 0, []⟩ :
          DeviceState).display ∧
    ((2 : ℚ) < 5) ∧
    (run_iteration
        ⟨⟨100, ("apple"), 60, true,
          .result ("apple") 1 100 60 ("LOW")⟩, 0, 0, 0, []⟩
        none 2 false 0).display =
      dm_update_weight
        { (⟨⟨100, ("apple"), 60, true,
            .result ("apple") 1 100 60 ("LOW")⟩, 0, 0, 0, []⟩ :
              DeviceState).display with
          ai_result_received := false
          current_carbon := 0
          current_food := ("") } 2 false :=
  ⟨rfl, by norm_num,
    C8_result_frozen_until_removed.1 _ 100 true 0 rfl (by norm_num),
    by norm_num,
    C8_result_frozen_until_removed.2.1 _ 2 false 0 rfl (by norm_num)⟩

/-! ## Claim C1: the auto-trigger never fires (code bug) -/

/-- C1 exhibits the bug: on the stable 150 g line the worker queues the
weight (both counters advance) but schedules no analysis, because the
auto-trigger reads `self.is_analyzing` / `self.root` on the
`WeightReceiver`, which owns neither attribute — the `AttributeError` is
swallowed by the loop's blanket handler (gui_main.py 253-256). -/
theorem C1_auto_trigger_never_fires :
    (processLine ⟨[], 0, 0, []⟩ (("WEIGHT:150.0:STABLE").data)).scheduled
        = [] ∧
      (processLine ⟨[], 0, 0, []⟩
          (("WEIGHT:150.0:STABLE").data)).queue.map
        WeightData.weight_grams = [150] ∧
      (processLine ⟨[], 0, 0, []⟩
          (("WEIGHT:150.0:STABLE").data)).weight_messages = 1 ∧
      weightReceiverAttrs.contains ("is_analyzing") = false ∧
      weightReceiverAttrs.contains ("root") = false := by
  have hp : parseFloatL (("150.0").data) = some 150 := by
    have h0 : parseFloatL (("150.0").data) =
        some (((150 : ℕ) : ℚ) + ((0 : ℕ) : ℚ) / 10 ^ 1) := rfl
    rw [h0]
    norm_num
  have h := processLine_stable_weight ⟨[], 0, 0, []⟩
    (("WEIGHT:150.0:STABLE").data) (by decide) (by decide)
    (("WEIGHT").data) (("150.0").data) (("STABLE").data) []
    (by decide) 150 hp (by decide) (by norm_num)
  rw [h]
  refine ⟨rfl, rfl, rfl, by decide, by decide⟩

/-! ## Claim C4: protocol round trip -/

/-- C4 counterexample: a `STATUS` message does not round-trip — neither
side has a `STATUS` parser, so the decoded result is `unrecognized`. -/
theorem C4_counterexample :
    decode (encode (.status ("REAL") 100)) ≠
      ProtocolMessage.status ("REAL") 100 := by
  rw [decode_encode_status]
  decide

/-- C4 (amended): `decode (encode m) = m` for every well-formed `Weight`
or `AnalysisResult` message (one-decimal numeric fields, no `:` in the
food name, impact level among the four levels the host sends); `STATUS`
messages are informational only and decode to `unrecognized`; the
concrete line `AI_RESULT:apple:95.5:150.5:75.3:LOW` decodes to the
apple/95.5/150.5/75.3/LOW record and that record re-encodes to the
identical line. -/
theorem C4_roundtrip :
    (∀ m : ProtocolMessage, wellFormed m → decode (encode m) = m) ∧
    (∀ (mode : String) (g : ℚ),
      decode (encode (.status mode g)) = .unrecognized) ∧
    decode (("AI_RESULT:apple:95.5:150.5:75.3:LOW").data) =
      .aiResult ("apple") 95.5 150.5 75.3 ("LOW") ∧
    encode (.aiResult ("apple") 95.5 150.5 75.3 ("LOW")) =
      ("AI_RESULT:apple:95.5:150.5:75.3:LOW").data := by
  refine ⟨?_, fun mode g => decode_encode_status mode g, ?_, ?_⟩
  · intro m hm
    match m with
    | .weight g st => exact decode_encode_weight g st hm
    | .status _ _ => exact hm.elim
    | .aiResult f c g co i =>
      obtain ⟨hf, hc, hg, hco, hi⟩ := hm
      have hi' : ':' ∉ i.data := by
        simp only [List.mem_cons, List.mem_singleton,
          List.not_mem_nil, or_false] at hi
        rcases hi with h | h | h | h <;> subst h <;> decide
      exact decode_encode_aiResult f c g co i hf hc hg hco hi'
    | .unrecognized => exact hm.elim
  · have h0 : decode (("AI_RESULT:apple:95.5:150.5:75.3:LOW").data) =
        .aiResult ("apple")
          (((95 : ℕ) : ℚ) + ((5 : ℕ) : ℚ) / 10 ^ 1)
          (((150 : ℕ) : ℚ) + ((5 : ℕ) : ℚ) / 10 ^ 1)
          (((75 : ℕ) : ℚ) + ((3 : ℕ) : ℚ) / 10 ^ 1) ("LOW") := rfl
    rw [h0,
      show (((95 : ℕ) : ℚ) + ((5 : ℕ) : ℚ) / 10 ^ 1) = 95.5 from by norm_num,
      show (((150 : ℕ) : ℚ) + ((5 : ℕ) : ℚ) / 10 ^ 1) = 150.5 from by norm_num,
      show (((75 : ℕ) : ℚ) + ((3 : ℕ) : ℚ) / 10 ^ 1) = 75.3 from by norm_num]
  · have e1 : fmt1 (95.5 : ℚ) = ("95.5").data := by
      rw [fmt1, show ((95.5 : ℚ) * 10) = ((955 : ℤ) : ℚ) from by norm_num,
        Rat.num_intCast]
      decide
    have e2 : fmt1 (150.5 : ℚ) = ("150.5").data := by
      rw [fmt1, show ((150.5 : ℚ) * 10) = ((1505 : ℤ) : ℚ) from by norm_num,
        Rat.num_intCast]
      decide
    have e3 : fmt1 (75.3 : ℚ) = ("75.3").data := by
      rw [fmt1, show ((75.3 : ℚ) * 10) = ((753 : ℤ) : ℚ) from by norm_num,
        Rat.num_intCast]
      decide
    show ("AI_RESULT:").data ++ ("apple").data ++ ':' :: _ = _
    rw [e1, e2, e3]
    decide

/-- C4 amended-claim witness: the apple message is well formed and
round-trips through the codec. -/
theorem C4_roundtrip_witness :
    wellFormed (.aiResult ("apple") 95.5 150.5 75.3 ("LOW")) ∧
    decode (encode (.aiResult ("apple") 95.5 150.5 75.3 ("LOW"))) =
      .aiResult ("apple") 95.5 150.5 75.3 ("LOW") := by
  have hwf : wellFormed (.aiResult ("apple") 95.5 150.5 75.3 ("LOW")) := by
    refine ⟨by decide, ?_, ?_, ?_, by decide⟩ <;>
      [(rw [oneDp, show ((95.5 : ℚ) * 10) = ((955 : ℤ) : ℚ) from by norm_num,
          Rat.den_intCast]);
       (rw [oneDp, show ((150.5 : ℚ) * 10) = ((1505 : ℤ) : ℚ) from by norm_num,
          Rat.den_intCast]);
       (rw [oneDp, show ((75.3 : ℚ) * 10) = ((753 : ℤ) : ℚ) from by norm_num,
          Rat.den_intCast])]
  exact ⟨hwf, C4_roundtrip.1 _ hwf⟩

/-! ## Claim C5: malformed lines are dropped, the reader keeps going -/

/-- C5: a line with fewer fields than its tag requires, or with an
unparsable numeric field, decodes to `unrecognized` (the embedding of
"never raises": the Python `ValueError`/blanket handlers absorb the
failure); concretely `WEIGHT:abc:STABLE` is unrecognized, and a worker
that sees it followed by `WEIGHT:100.0:STABLE` still queues the second
message, having counted both. -/
theorem C5_malformed_dropped :
    (∀ l : List Char, startsWithL (("WEIGHT:").data) l = true →
      ((splitOnChar ':' l).length < 3 ∨
        parseFloatL ((splitOnChar ':' l).getD 1 []) = none) →
      decode l = .unrecognized) ∧
    (∀ l : List Char, startsWithL (("AI_RESULT:").data) l = true →
      ((splitOnChar ':' l).length < 6 ∨
        parseFloatL ((splitOnChar ':' l).getD 2 []) = none ∨
        parseFloatL ((splitOnChar ':' l).getD 3 []) = none ∨
        parseFloatL ((splitOnChar ':' l).getD 4 []) = none) →
      decode l = .unrecognized) ∧
    decode (("WEIGHT:abc:STABLE").data) = .unrecognized ∧
    (runWorker [("WEIGHT:abc:STABLE").data,
        ("WEIGHT:100.0:STABLE").data]).queue.map
      WeightData.weight_grams = [100] ∧
    (runWorker [("WEIGHT:abc:STABLE").data,
        ("WEIGHT:100.0:STABLE").data]).messages_received = 2 := by
  have hp100 : parseFloatL (("100.0").data) = some 100 := by
    have h0 : parseFloatL (("100.0").data) =
        some (((100 : ℕ) : ℚ) + ((0 : ℕ) : ℚ) / 10 ^ 1) := rfl
    rw [h0]
    norm_num
  have hstep1 : processLine ⟨[], 0, 0, []⟩ (("WEIGHT:abc:STABLE").data) =
      ⟨[], 1, 0, []⟩ := by decide
  have hstep2 : processLine ⟨[], 1, 0, []⟩
      (("WEIGHT:100.0:STABLE").data) =
      ⟨[⟨100, true, toUpperL (("STABLE").data),
        ("WEIGHT:100.0:STABLE").data⟩], 2, 1, []⟩ := by
    have h := processLine_stable_weight ⟨[], 1, 0, []⟩
      (("WEIGHT:100.0:STABLE").data) (by decide) (by decide)
      (("WEIGHT").data) (("100.0").data) (("STABLE").data) []
      (by decide) 100 hp100 (by decide) (by norm_num)
    rw [h]
    rfl
  have hrun : runWorker [("WEIGHT:abc:STABLE").data,
      ("WEIGHT:100.0:STABLE").data] =
      ⟨[⟨100, true, toUpperL (("STABLE").data),
        ("WEIGHT:100.0:STABLE").data⟩], 2, 1, []⟩ := by
    rw [show runWorker [("WEIGHT:abc:STABLE").data,
        ("WEIGHT:100.0:STABLE").data] =
      processLine (processLine ⟨[], 0, 0, []⟩
        (("WEIGHT:abc:STABLE").data))
        (("WEIGHT:100.0:STABLE").data) from rfl, hstep1, hstep2]
  refine ⟨?_, ?_, by decide, by rw [hrun]; rfl, by rw [hrun]⟩
  · intro l hw hbad
    unfold decode
    rw [if_pos hw]
    rcases hsplit : splitOnChar ':' l with _ | ⟨a, _ | ⟨b, _ | ⟨c, rest⟩⟩⟩
    · rfl
    · rfl
    · rfl
    · rw [hsplit] at hbad
      rcases hbad with hlen | hnone
      · simp at hlen
        omega
      · simp only [List.getD_cons_succ, List.getD_cons_zero] at hnone
        split <;> simp_all
  · intro l hai hbad
    have hnw : startsWithL (("WEIGHT:").data) l = false := by
      rw [show ("AI_RESULT:").data = 'A' :: ("I_RESULT:").data
        from by decide] at hai
      obtain ⟨cs, hcs, -⟩ := (startsWithL_cons_iff 'A' _ l).mp hai
      rw [hcs, show ("WEIGHT:").data = 'W' :: ("EIGHT:").data from by decide]
      exact startsWithL_cons_of_ne _ _ _ _ (by decide)
    unfold decode
    rw [if_neg (by simp [hnw]), if_pos hai]
    rcases hsplit : splitOnChar ':' l with
      _ | ⟨a, _ | ⟨b, _ | ⟨c, _ | ⟨d, _ | ⟨e, _ | ⟨f, rest⟩⟩⟩⟩⟩⟩
    · rfl
    · rfl
    · rfl
    · rfl
    · rfl
    · rfl
    · rw [hsplit] at hbad
      rcases hbad with hlen | hnone | hnone | hnone
      · simp at hlen
        omega
      all_goals
        simp only [List.getD_cons_succ, List.getD_cons_zero] at hnone
        split <;> simp_all

/-- C5 witness: the short line `WEIGHT:5` (two fields) is unrecognized
via the general statement. -/
theorem C5_malformed_dropped_witness :
    (startsWithL (("WEIGHT:").data) (("WEIGHT:5").data) = true ∧
      (splitOnChar ':' (("WEIGHT:5").data)).length < 3) ∧
    decode (("WEIGHT:5").data) = .unrecognized :=
  ⟨⟨by decide, by decide⟩,
    C5_malformed_dropped.1 (("WEIGHT:5").data) (by decide)
      (Or.inl (by decide))⟩

end KT27
